import Mathlib

/-!
Shallow embedding of the LangGraph software-development-lifecycle workflow:
the shared state record (src/workflow/state.py), the nineteen stage functions
(src/workflow/nodes.py), the six decision functions (src/workflow/decisions.py),
the routing table (src/workflow/graph.py) and the fueled runner with the
recursion limit of 30 (src/ramadan.py, max_steps_allowed).

The external text-generation service is modelled as an oracle
`gen : Int -> GenResult`, indexed by the value of the step counter at the
moment of the call: for each call it is either unavailable (the quota gate or
provider lookup in utils/llm.py returned no client), returns a response text,
or raises an error carrying a message.  Every stage function in the source
mutates the state dict in place and returns it, so stages are embedded as
total functions from state to state.
-/

/-- Result of one interaction with the external generation service. -/
inductive GenResult where
  | unavailable
  | ok (text : String)
  | err (msg : String)
deriving Repr, DecidableEq

/-- The state record threaded through the workflow (src/workflow/state.py). -/
structure WorkflowState where
  user_requirements : Option String := none
  user_stories : Option String := none
  po_review_outcome : Option String := none
  po_review_feedback : Option String := none
  design_documents : Option String := none
  design_review_outcome : Option String := none
  design_review_feedback : Option String := none
  generated_code : Option String := none
  code_review_outcome : Option String := none
  code_review_feedback : Option String := none
  security_review_outcome : Option String := none
  security_review_feedback : Option String := none
  test_cases : Option String := none
  test_case_review_outcome : Option String := none
  test_case_review_feedback : Option String := none
  qa_test_outcome : Option String := none
  qa_test_feedback : Option String := none
  deployment_status : Option String := none
  monitoring_feedback : Option String := none
  maintenance_updates_log : List String := []
  llm_provider : Option String := none
  step_counter : Int := 0
deriving Repr, DecidableEq

/-- Python falsiness of an optional string field: absent, None, or empty. -/
def blank : Option String → Bool
  | none => true
  | some s => s == ""

/-- Reading an optional field with default value the empty string. -/
def getS (o : Option String) : String := o.getD ""

/-- Python str.strip: remove whitespace from both ends.  Implemented on the
character list so that it reduces inside the kernel. -/
def strip (s : String) : String :=
  String.mk (((s.data.dropWhile Char.isWhitespace).reverse.dropWhile Char.isWhitespace).reverse)

/-- Python str.startswith. -/
def startswith (s p : String) : Bool := p.data.isPrefixOf s.data

/-- Python str.endswith. -/
def endswith (s p : String) : Bool := p.data.isSuffixOf s.data

/-- Python str.removeprefix: drop a leading marker only when present. -/
def removeIfLeading (m s : String) : String :=
  if startswith s m then String.mk (s.data.drop m.data.length) else s

/-- Python str.removesuffix: drop a trailing marker only when present. -/
def removeIfTrailing (m s : String) : String :=
  if endswith s m then String.mk (s.data.take (s.data.length - m.data.length)) else s

/-- The post-processing chain applied to generated code in nodes.py:
strip, remove a leading markdown fence, remove a trailing fence, strip. -/
def cleanCode (s : String) : String :=
  strip (removeIfTrailing "```" (removeIfLeading "```python" (strip s)))

/-- The validity check on generated code repeated inline in code_review,
security_review, write_test_cases and monitoring_and_feedback. -/
def invalidCode (c : String) : Bool :=
  c == "" || startswith c "# Error" || startswith c "# Code generation skipped"

/-- The validity check on test cases repeated inline in test_cases_review and
qa_testing. -/
def invalidTests (t : String) : Bool :=
  t == "" || startswith t "Test case generation skipped" || startswith t "Error generating"

/-- nodes.py gather_requirements: increment the counter, then overwrite
user_requirements with the text-area input unless that input is empty. -/
def gather_requirements (ui : String) (st : WorkflowState) : WorkflowState :=
  let st1 := { st with step_counter := st.step_counter + 1 }
  if ui == "" then st1 else { st1 with user_requirements := some ui }

/-- nodes.py create_user_stories. -/
def create_user_stories (gen : Int → GenResult) (st : WorkflowState) : WorkflowState :=
  let st1 := { st with step_counter := st.step_counter + 1 }
  if blank st1.user_requirements then st1
  else
    match gen st1.step_counter with
    | GenResult.unavailable => { st1 with user_stories := some "User Story generation skipped." }
    | GenResult.ok t => { st1 with user_stories := some (strip t) }
    | GenResult.err e => { st1 with user_stories := some ("Error generating stories: " ++ e) }

/-- nodes.py product_owner_review: reject when no stories, else auto-approve
with a fixed positive feedback string. -/
def product_owner_review (st : WorkflowState) : WorkflowState :=
  let st1 := { st with step_counter := st.step_counter + 1 }
  if blank st1.user_stories then
    { st1 with po_review_outcome := some "Rejected",
               po_review_feedback := some "No user stories provided for review." }
  else
    { st1 with po_review_outcome := some "Approved",
               po_review_feedback := some "User stories meet requirements and are well-structured." }

/-- nodes.py revise_user_stories: on a generation error the source keeps the
original stories unchanged. -/
def revise_user_stories (gen : Int → GenResult) (st : WorkflowState) : WorkflowState :=
  let st1 := { st with step_counter := st.step_counter + 1 }
  if blank st1.user_stories || blank st1.po_review_feedback then
    { st1 with user_stories := some "Revised user stories (placeholder)" }
  else
    match gen st1.step_counter with
    | GenResult.unavailable =>
        { st1 with user_stories := some (getS st1.user_stories
            ++ "\n\n// Revision skipped - feedback was: "
            ++ getS st1.po_review_feedback) }
    | GenResult.ok t => { st1 with user_stories := some (strip t) }
    | GenResult.err _ => { st1 with user_stories := st1.user_stories }

/-- nodes.py create_design. -/
def create_design (gen : Int → GenResult) (st : WorkflowState) : WorkflowState :=
  let st1 := { st with step_counter := st.step_counter + 1 }
  if blank st1.user_stories then st1
  else
    match gen st1.step_counter with
    | GenResult.unavailable =>
        { st1 with design_documents := some ("Design document generation skipped. Based on requirements:\n"
            ++ getS st1.user_requirements) }
    | GenResult.ok t => { st1 with design_documents := some (strip t) }
    | GenResult.err e =>
        { st1 with design_documents := some ("Error creating design documents: " ++ e) }

/-- nodes.py design_review: reject when no design, else auto-approve with a
fixed positive feedback string. -/
def design_review (st : WorkflowState) : WorkflowState :=
  let st1 := { st with step_counter := st.step_counter + 1 }
  if blank st1.design_documents then
    { st1 with design_review_outcome := some "Rejected",
               design_review_feedback := some "No design documents provided for review." }
  else
    { st1 with design_review_outcome := some "Approved",
               design_review_feedback := some "Design documents are comprehensive and align with requirements." }

/-- nodes.py generate_code: the context is design_documents or user_stories or
the empty string, following Python or-chaining over falsy values. -/
def generate_code (gen : Int → GenResult) (st : WorkflowState) : WorkflowState :=
  let st1 := { st with step_counter := st.step_counter + 1 }
  let context :=
    if blank st1.design_documents then
      (if blank st1.user_stories then "" else getS st1.user_stories)
    else getS st1.design_documents
  if context == "" then st1
  else
    match gen st1.step_counter with
    | GenResult.unavailable => { st1 with generated_code := some "# Code generation skipped." }
    | GenResult.ok t => { st1 with generated_code := some (cleanCode t) }
    | GenResult.err e => { st1 with generated_code := some ("# Error generating code: " ++ e) }

/-- nodes.py code_review: reject invalid or placeholder code, else auto-approve
with a fixed positive feedback string. -/
def code_review (st : WorkflowState) : WorkflowState :=
  let st1 := { st with step_counter := st.step_counter + 1 }
  if invalidCode (getS st1.generated_code) then
    { st1 with code_review_outcome := some "Rejected",
               code_review_feedback := some "No valid code provided for review." }
  else
    { st1 with code_review_outcome := some "Approved",
               code_review_feedback := some "Code is clean, well-documented, and follows best practices." }

/-- nodes.py fix_code_after_code_review: on a generation error the source keeps
the original code unchanged. -/
def fix_code_after_code_review (gen : Int → GenResult) (st : WorkflowState) : WorkflowState :=
  let st1 := { st with step_counter := st.step_counter + 1 }
  if blank st1.generated_code || blank st1.code_review_feedback then
    { st1 with generated_code := some "# Fixed code (placeholder)" }
  else
    match gen st1.step_counter with
    | GenResult.unavailable =>
        { st1 with generated_code := some (getS st1.generated_code
            ++ "\n\n# Revision skipped - feedback was: "
            ++ getS st1.code_review_feedback) }
    | GenResult.ok t => { st1 with generated_code := some (cleanCode t) }
    | GenResult.err _ => { st1 with generated_code := st1.generated_code }

/-- nodes.py security_review: with invalid code the stage returns without
writing any outcome; otherwise it approves and clears the feedback to None. -/
def security_review (st : WorkflowState) : WorkflowState :=
  let st1 := { st with step_counter := st.step_counter + 1 }
  if invalidCode (getS st1.generated_code) then st1
  else
    { st1 with security_review_outcome := some "Approved",
               security_review_feedback := none }

/-- nodes.py fix_code_after_security: with no feedback the stage appends a
cosmetic enhancement note; on a generation error it keeps the code unchanged. -/
def fix_code_after_security (gen : Int → GenResult) (st : WorkflowState) : WorkflowState :=
  let st1 := { st with step_counter := st.step_counter + 1 }
  if blank st1.generated_code then
    { st1 with generated_code := some "# Security-fixed code (placeholder)" }
  else if blank st1.security_review_feedback then
    { st1 with generated_code := some (getS st1.generated_code ++ "\n\n# Security enhancements added") }
  else
    match gen st1.step_counter with
    | GenResult.unavailable =>
        { st1 with generated_code := some (getS st1.generated_code
            ++ "\n\n# Security fixes skipped - feedback was: "
            ++ getS st1.security_review_feedback) }
    | GenResult.ok t => { st1 with generated_code := some (cleanCode t) }
    | GenResult.err _ => { st1 with generated_code := st1.generated_code }

/-- nodes.py write_test_cases. -/
def write_test_cases (gen : Int → GenResult) (st : WorkflowState) : WorkflowState :=
  let st1 := { st with step_counter := st.step_counter + 1 }
  if invalidCode (getS st1.generated_code) then
    { st1 with test_cases := some "Test case generation skipped due to missing code." }
  else
    match gen st1.step_counter with
    | GenResult.unavailable =>
        { st1 with test_cases := some "Test case generation skipped due to missing LLM." }
    | GenResult.ok t => { st1 with test_cases := some (strip t) }
    | GenResult.err e => { st1 with test_cases := some ("Error generating test cases: " ++ e) }

/-- nodes.py test_cases_review: reject invalid tests, else auto-approve with a
fixed positive feedback string. -/
def test_cases_review (st : WorkflowState) : WorkflowState :=
  let st1 := { st with step_counter := st.step_counter + 1 }
  if invalidTests (getS st1.test_cases) then
    { st1 with test_case_review_outcome := some "Rejected",
               test_case_review_feedback := some "No valid test cases provided for review." }
  else
    { st1 with test_case_review_outcome := some "Approved",
               test_case_review_feedback := some "Test cases provide good coverage and include edge cases." }

/-- nodes.py fix_test_cases_after_review: on a generation error the source
keeps the original test cases unchanged. -/
def fix_test_cases_after_review (gen : Int → GenResult) (st : WorkflowState) : WorkflowState :=
  let st1 := { st with step_counter := st.step_counter + 1 }
  if blank st1.test_cases || blank st1.test_case_review_feedback then
    { st1 with test_cases := some "Fixed test cases (placeholder)" }
  else
    match gen st1.step_counter with
    | GenResult.unavailable =>
        { st1 with test_cases := some (getS st1.test_cases
            ++ "\n\n// Revision skipped - feedback was: "
            ++ getS st1.test_case_review_feedback) }
    | GenResult.ok t => { st1 with test_cases := some (strip t) }
    | GenResult.err _ => { st1 with test_cases := st1.test_cases }

/-- nodes.py qa_testing: skip when code or tests are missing or invalid, else
always pass with feedback None. -/
def qa_testing (st : WorkflowState) : WorkflowState :=
  let st1 := { st with step_counter := st.step_counter + 1 }
  if getS st1.generated_code == "" || invalidTests (getS st1.test_cases) then
    { st1 with qa_test_outcome := some "Skipped",
               qa_test_feedback := some "QA testing skipped due to missing code or test cases." }
  else
    { st1 with qa_test_outcome := some "Passed",
               qa_test_feedback := none }

/-- nodes.py fix_code_after_qa_feedback: with blank code it writes a
placeholder and returns without touching the QA outcome; with feedback and the
service unavailable it appends a skip note and also returns without touching
the outcome; on every other path it forces qa_test_outcome to Passed. -/
def fix_code_after_qa_feedback (gen : Int → GenResult) (st : WorkflowState) : WorkflowState :=
  let st1 := { st with step_counter := st.step_counter + 1 }
  if blank st1.generated_code then
    { st1 with generated_code := some "# QA-fixed code (placeholder)" }
  else if blank st1.qa_test_feedback then
    { st1 with generated_code := st1.generated_code,
               qa_test_outcome := some "Passed" }
  else
    match gen st1.step_counter with
    | GenResult.unavailable =>
        { st1 with generated_code := some (getS st1.generated_code
            ++ "\n\n# QA fixes skipped - feedback was: "
            ++ getS st1.qa_test_feedback) }
    | GenResult.ok t =>
        { st1 with generated_code := some (cleanCode t),
                   qa_test_outcome := some "Passed" }
    | GenResult.err _ =>
        { st1 with generated_code := st1.generated_code,
                   qa_test_outcome := some "Passed" }

/-- nodes.py deployment. -/
def deployment (st : WorkflowState) : WorkflowState :=
  let st1 := { st with step_counter := st.step_counter + 1 }
  if getS st1.generated_code == "" || getS st1.qa_test_outcome == ""
       || getS st1.qa_test_outcome == "Failed" || getS st1.qa_test_outcome == "Skipped" then
    { st1 with deployment_status := some "Deployment skipped due to issues in code or QA testing." }
  else
    { st1 with deployment_status := some "Deployed to Staging Environment. Verification tests passed." }

/-- nodes.py monitoring_and_feedback. -/
def monitoring_and_feedback (gen : Int → GenResult) (st : WorkflowState) : WorkflowState :=
  let st1 := { st with step_counter := st.step_counter + 1 }
  if invalidCode (getS st1.generated_code) then
    { st1 with monitoring_feedback := some "Monitoring skipped due to missing code." }
  else
    match gen st1.step_counter with
    | GenResult.unavailable =>
        { st1 with monitoring_feedback := some "Monitoring feedback skipped due to missing LLM." }
    | GenResult.ok t => { st1 with monitoring_feedback := some (strip t) }
    | GenResult.err e => { st1 with monitoring_feedback := some ("Error during monitoring: " ++ e) }

/-- nodes.py maintenance_and_updates (terminal): increments the counter,
appends the completion entry to the log, then sets the counter to -1. -/
def maintenance_and_updates (st : WorkflowState) : WorkflowState :=
  let st1 := { st with step_counter := st.step_counter + 1 }
  { st1 with
      maintenance_updates_log := st1.maintenance_updates_log
        ++ ["Cycle Complete. Monitoring feedback processed and ticket created to address issues."],
      step_counter := -1 }

/-- The stage names registered in src/workflow/graph.py. -/
inductive Stage where
  | gather_requirements
  | create_user_stories
  | product_owner_review
  | revise_user_stories
  | create_design
  | design_review
  | generate_code
  | code_review
  | fix_code_after_code_review
  | security_review
  | fix_code_after_security
  | write_test_cases
  | test_cases_review
  | fix_test_cases_after_review
  | qa_testing
  | fix_code_after_qa_feedback
  | deployment
  | monitoring_and_feedback
  | maintenance_and_updates
deriving Repr, DecidableEq

/-- decisions.py decide_after_po_review. -/
def decide_after_po_review (st : WorkflowState) : Stage :=
  if st.step_counter > 25 then Stage.create_design
  else if st.po_review_outcome == some "Approved" then Stage.create_design
  else Stage.revise_user_stories

/-- decisions.py decide_after_design_review. -/
def decide_after_design_review (st : WorkflowState) : Stage :=
  if st.step_counter > 25 then Stage.generate_code
  else if st.design_review_outcome == some "Approved" then Stage.generate_code
  else Stage.create_design

/-- decisions.py decide_after_code_review. -/
def decide_after_code_review (st : WorkflowState) : Stage :=
  if st.step_counter > 25 then Stage.security_review
  else if st.code_review_outcome == some "Approved" then Stage.security_review
  else Stage.fix_code_after_code_review

/-- decisions.py decide_after_security_review. -/
def decide_after_security_review (st : WorkflowState) : Stage :=
  if st.step_counter > 25 then Stage.write_test_cases
  else if st.security_review_outcome == some "Approved" then Stage.write_test_cases
  else Stage.fix_code_after_security

/-- decisions.py decide_after_test_cases_review. -/
def decide_after_test_cases_review (st : WorkflowState) : Stage :=
  if st.step_counter > 25 then Stage.qa_testing
  else if st.test_case_review_outcome == some "Approved" then Stage.qa_testing
  else Stage.fix_test_cases_after_review

/-- decisions.py decide_after_qa_testing. -/
def decide_after_qa_testing (st : WorkflowState) : Stage :=
  if st.step_counter > 25 then Stage.deployment
  else if st.qa_test_outcome == some "Passed" then Stage.deployment
  else Stage.fix_code_after_qa_feedback

/-- The routing table of src/workflow/graph.py: fixed edges, conditional edges
through the decision functions, and END after the terminal stage. -/
def nextStage (stg : Stage) (st : WorkflowState) : Option Stage :=
  match stg with
  | Stage.gather_requirements => some Stage.create_user_stories
  | Stage.create_user_stories => some Stage.product_owner_review
  | Stage.product_owner_review => some (decide_after_po_review st)
  | Stage.revise_user_stories => some Stage.product_owner_review
  | Stage.create_design => some Stage.design_review
  | Stage.design_review => some (decide_after_design_review st)
  | Stage.generate_code => some Stage.code_review
  | Stage.code_review => some (decide_after_code_review st)
  | Stage.fix_code_after_code_review => some Stage.code_review
  | Stage.security_review => some (decide_after_security_review st)
  | Stage.fix_code_after_security => some Stage.security_review
  | Stage.write_test_cases => some Stage.test_cases_review
  | Stage.test_cases_review => some (decide_after_test_cases_review st)
  | Stage.fix_test_cases_after_review => some Stage.test_cases_review
  | Stage.qa_testing => some (decide_after_qa_testing st)
  | Stage.fix_code_after_qa_feedback => some Stage.qa_testing
  | Stage.deployment => some Stage.monitoring_and_feedback
  | Stage.monitoring_and_feedback => some Stage.maintenance_and_updates
  | Stage.maintenance_and_updates => none

/-- Dispatch from stage name to stage function. -/
def nodeFn (gen : Int → GenResult) (ui : String) : Stage → WorkflowState → WorkflowState
  | Stage.gather_requirements => gather_requirements ui
  | Stage.create_user_stories => create_user_stories gen
  | Stage.product_owner_review => product_owner_review
  | Stage.revise_user_stories => revise_user_stories gen
  | Stage.create_design => create_design gen
  | Stage.design_review => design_review
  | Stage.generate_code => generate_code gen
  | Stage.code_review => code_review
  | Stage.fix_code_after_code_review => fix_code_after_code_review gen
  | Stage.security_review => security_review
  | Stage.fix_code_after_security => fix_code_after_security gen
  | Stage.write_test_cases => write_test_cases gen
  | Stage.test_cases_review => test_cases_review
  | Stage.fix_test_cases_after_review => fix_test_cases_after_review gen
  | Stage.qa_testing => qa_testing
  | Stage.fix_code_after_qa_feedback => fix_code_after_qa_feedback gen
  | Stage.deployment => deployment
  | Stage.monitoring_and_feedback => monitoring_and_feedback gen
  | Stage.maintenance_and_updates => maintenance_and_updates

/-- The fueled engine loop: invoke the current stage, follow a fixed or
conditional edge, stop at END; when the fuel (the recursion limit) runs out
before the terminal stage returns, the run fails. -/
def runAux (gen : Int → GenResult) (ui : String) : Nat → Stage → WorkflowState → Except String WorkflowState
  | 0, _, _ => Except.error "RecursionLimitExceeded"
  | n + 1, stg, st =>
    let st2 := nodeFn gen ui stg st
    match nextStage stg st2 with
    | none => Except.ok st2
    | some nxt => runAux gen ui n nxt st2

/-- ramadan.py max_steps_allowed, passed as the recursion limit. -/
def max_steps_allowed : Nat := 30

/-- A full run from the entry stage with the recursion limit of 30. -/
def run (gen : Int → GenResult) (ui : String) (st : WorkflowState) : Except String WorkflowState :=
  runAux gen ui max_steps_allowed Stage.gather_requirements st

/-- The initial state ramadan.py passes to app.invoke. -/
def initial_state (req : String) : WorkflowState :=
  { user_requirements := some req, step_counter := 0, maintenance_updates_log := [] }

/-- The step counter of a finished run, used to observe that a run returned
normally and in which terminal condition. -/
def resCounter (r : Except String WorkflowState) : Option Int :=
  match r with
  | Except.ok fin => some fin.step_counter
  | Except.error _ => none

/-- The generated code of a finished run. -/
def resCode (r : Except String WorkflowState) : Option (Option String) :=
  match r with
  | Except.ok fin => some fin.generated_code
  | Except.error _ => none

/-- A generation-stub output that every consuming stage accepts as a valid
artifact: non-empty after stripping, not mistakable for a code error or skip
marker after the code post-processing chain, and not mistakable for a test
skip or error marker. -/
def goodStub (s : String) : Bool :=
  !(strip s == "") && !invalidCode (cleanCode s) && !invalidTests (strip s)

/-- A fully populated state on which every stage that consumes the generation
service reaches its generation call. -/
def c7state : WorkflowState :=
  { user_requirements := some "Build a login page with SSO",
    user_stories := some "As a user I can log in",
    po_review_feedback := some "Add acceptance criteria",
    design_documents := some "Design overview",
    generated_code := some "print(1)",
    code_review_feedback := some "Add docstrings",
    security_review_feedback := some "Sanitize inputs",
    test_cases := some "assert login() works",
    test_case_review_feedback := some "Cover edge cases",
    qa_test_feedback := some "Login fails on empty password" }

/-- A state with every reviewed artifact present and valid. -/
def c3state : WorkflowState :=
  { user_stories := some "As a user I can log in",
    design_documents := some "Design overview",
    generated_code := some "print(1)",
    test_cases := some "assert True" }

theorem runAux_succ (gen : Int → GenResult) (ui : String) (n : Nat) (stg : Stage)
    (st : WorkflowState) :
    runAux gen ui (n + 1) stg st =
      match nextStage stg (nodeFn gen ui stg st) with
      | none => Except.ok (nodeFn gen ui stg st)
      | some nxt => runAux gen ui n nxt (nodeFn gen ui stg st) := rfl

/-- Claim C1: once the step counter exceeds 25, each of the six decision
functions routes to its success-branch stage regardless of what the review
outcome fields hold, Rejected and missing outcomes included. -/
theorem C1_loop_guard_overrides (st : WorkflowState) (h : st.step_counter > 25) :
    decide_after_po_review st = Stage.create_design ∧
    decide_after_design_review st = Stage.generate_code ∧
    decide_after_code_review st = Stage.security_review ∧
    decide_after_security_review st = Stage.write_test_cases ∧
    decide_after_test_cases_review st = Stage.qa_testing ∧
    decide_after_qa_testing st = Stage.deployment := by
  simp [decide_after_po_review, decide_after_design_review, decide_after_code_review,
        decide_after_security_review, decide_after_test_cases_review, decide_after_qa_testing, h]

/-- Witness for C1 at step_counter 26 with a Rejected outcome. -/
theorem C1_loop_guard_overrides_witness :
    decide_after_po_review { step_counter := 26, po_review_outcome := some "Rejected" }
        = Stage.create_design ∧
    decide_after_qa_testing { step_counter := 26, po_review_outcome := some "Rejected" }
        = Stage.deployment := by
  have h := C1_loop_guard_overrides { step_counter := 26, po_review_outcome := some "Rejected" }
    (by decide)
  exact ⟨h.1, h.2.2.2.2.2⟩

/-- Claim C2, counterexample: a generation service that returns a string on
every call (here the empty string) from an initial state with non-empty
user_requirements does not reach the terminal stage within the recursion
limit of 30: empty artifacts are rejected by the reviews, the rejection loops
burn the budget, and the run fails. -/
theorem C2_counterexample :
    blank (initial_state "Build a login page").user_requirements = false ∧
    (run (fun _ => GenResult.ok "") "Build a login page" (initial_state "Build a login page")).isOk
      = false := by decide

set_option maxHeartbeats 3200000 in
theorem run_from_create_user_stories (g : Int → String) (ui : String) (st : WorkflowState)
    (hreq : blank st.user_requirements = false)
    (h1 : ∀ k, (strip (g k) == "") = false)
    (h2 : ∀ k, invalidCode (cleanCode (g k)) = false)
    (h2a : ∀ k, (cleanCode (g k) == "") = false)
    (h3 : ∀ k, invalidTests (strip (g k)) = false) :
    resCounter (runAux (fun k => GenResult.ok (g k)) ui 29 Stage.create_user_stories st)
      = some (-1) := by
  have hp1 : (("Passed" : String) == "") = false := by decide
  have hp2 : (("Passed" : String) == "Failed") = false := by decide
  have hp3 : (("Passed" : String) == "Skipped") = false := by decide
  have ha : ((some "Approved" : Option String) == some "Approved") = true := by decide
  have hpp : ((some "Passed" : Option String) == some "Passed") = true := by decide
  have hbs : ∀ x : String, blank (some x) = (x == "") := fun x => rfl
  simp [runAux, nodeFn, nextStage, create_user_stories, product_owner_review, create_design,
    design_review, generate_code, code_review, security_review, write_test_cases,
    test_cases_review, qa_testing, deployment, monitoring_and_feedback, maintenance_and_updates,
    decide_after_po_review, decide_after_design_review, decide_after_code_review,
    decide_after_security_review, decide_after_test_cases_review, decide_after_qa_testing,
    hreq, hbs, getS, h1, h2, h2a, h3, hp1, hp2, hp3, ha, hpp, ite_self, resCounter]

/-- Claim C2, amended: from every initial state with non-empty
user_requirements, under a generation service that on every call returns a
string whose stripped value is non-empty and free of the error and skip
markers the reviews test for, the run reaches the terminal stage
maintenance_and_updates (which writes the counter sentinel -1) within the
recursion limit of 30 stage invocations. -/
theorem C2_run_terminates (st0 : WorkflowState) (ui : String) (g : Int → String)
    (hreq : blank st0.user_requirements = false)
    (hg : ∀ k, goodStub (g k) = true) :
    resCounter (run (fun k => GenResult.ok (g k)) ui st0) = some (-1) := by
  have h1 : ∀ k, (strip (g k) == "") = false := by
    intro k
    cases hc : (strip (g k) == "") with
    | false => rfl
    | true => have hk := hg k; rw [goodStub, hc] at hk; simp at hk
  have h2 : ∀ k, invalidCode (cleanCode (g k)) = false := by
    intro k
    cases hc : invalidCode (cleanCode (g k)) with
    | false => rfl
    | true => have hk := hg k; rw [goodStub, hc] at hk; simp at hk
  have h3 : ∀ k, invalidTests (strip (g k)) = false := by
    intro k
    cases hc : invalidTests (strip (g k)) with
    | false => rfl
    | true => have hk := hg k; rw [goodStub, hc] at hk; simp at hk
  have h2a : ∀ k, (cleanCode (g k) == "") = false := by
    intro k
    have hk := h2 k
    rw [invalidCode] at hk
    simp only [Bool.or_eq_false_iff] at hk
    exact hk.1.1
  rw [run, max_steps_allowed, show (30 : Nat) = 29 + 1 from rfl, runAux_succ]
  cases hb : (ui == "") with
  | true =>
    simp only [nodeFn, gather_requirements, hb, if_pos, nextStage]
    exact run_from_create_user_stories g ui _ (by simpa using hreq) h1 h2 h2a h3
  | false =>
    simp only [nodeFn, gather_requirements, hb, Bool.false_eq_true, if_false, nextStage]
    exact run_from_create_user_stories g ui _ (by simp [blank, hb]) h1 h2 h2a h3

/-- Witness for C2 with a constant benign stub. -/
theorem C2_run_terminates_witness :
    resCounter (run (fun _ => GenResult.ok "print(1)") "Build a login page"
      (initial_state "Build a login page")) = some (-1) := by
  have hg : ∀ k : Int, goodStub ((fun _ : Int => "print(1)") k) = true := by
    intro k
    show goodStub "print(1)" = true
    decide
  exact C2_run_terminates (initial_state "Build a login page") "Build a login page"
    (fun _ => "print(1)") (by decide) hg

/-- Claim C3, counterexample: product_owner_review approves non-empty user
stories and sets a non-null feedback string in the same patch, violating the
claimed success-clears-feedback invariant. -/
theorem C3_counterexample :
    (product_owner_review { user_stories := some "As a user I can log in" }).po_review_outcome
        = some "Approved" ∧
    (product_owner_review { user_stories := some "As a user I can log in" }).po_review_feedback
        ≠ none := by decide

/-- Claim C3, amended: the success-clears-feedback invariant holds for
qa_testing (whenever the outcome it writes is Passed the feedback is null) and
for security_review on valid code; the other four review stages
(product_owner_review, design_review, code_review, test_cases_review) pair
their success outcome with a non-null feedback string. -/
theorem C3_success_feedback (st : WorkflowState) :
    ((qa_testing st).qa_test_outcome = some "Passed" → (qa_testing st).qa_test_feedback = none) ∧
    (invalidCode (getS st.generated_code) = false →
      (security_review st).security_review_outcome = some "Approved" ∧
      (security_review st).security_review_feedback = none) ∧
    (blank st.user_stories = false →
      (product_owner_review st).po_review_outcome = some "Approved" ∧
      (product_owner_review st).po_review_feedback ≠ none) ∧
    (blank st.design_documents = false →
      (design_review st).design_review_outcome = some "Approved" ∧
      (design_review st).design_review_feedback ≠ none) ∧
    (invalidCode (getS st.generated_code) = false →
      (code_review st).code_review_outcome = some "Approved" ∧
      (code_review st).code_review_feedback ≠ none) ∧
    (invalidTests (getS st.test_cases) = false →
      (test_cases_review st).test_case_review_outcome = some "Approved" ∧
      (test_cases_review st).test_case_review_feedback ≠ none) := by
  refine ⟨?_, ?_, ?_, ?_, ?_, ?_⟩
  · intro h
    by_cases hc : (getS st.generated_code == "" || invalidTests (getS st.test_cases)) = true
    · simp [qa_testing, hc] at h
    · simp [qa_testing, hc]
  · intro h; simp [security_review, h]
  · intro h; simp [product_owner_review, h]
  · intro h; simp [design_review, h]
  · intro h; simp [code_review, h]
  · intro h; simp [test_cases_review, h]

/-- Witness for C3 on a state with every reviewed artifact present. -/
theorem C3_success_feedback_witness :
    (qa_testing c3state).qa_test_feedback = none ∧
    (security_review c3state).security_review_feedback = none ∧
    (product_owner_review c3state).po_review_feedback ≠ none ∧
    (design_review c3state).design_review_feedback ≠ none ∧
    (code_review c3state).code_review_feedback ≠ none ∧
    (test_cases_review c3state).test_case_review_feedback ≠ none := by
  have h := C3_success_feedback c3state
  exact ⟨h.1 (by decide), (h.2.1 (by decide)).2, (h.2.2.1 (by decide)).2,
    (h.2.2.2.1 (by decide)).2, (h.2.2.2.2.1 (by decide)).2, (h.2.2.2.2.2 (by decide)).2⟩

/-- Claim C4: every one of the eighteen non-terminal stage functions leaves
the step counter exactly one above its input value, and the terminal stage
maintenance_and_updates is the single place that writes the sentinel -1. -/
theorem C4_counter (gen : Int → GenResult) (ui : String) (st : WorkflowState) :
    (nodeFn gen ui Stage.gather_requirements st).step_counter = st.step_counter + 1 ∧
    (nodeFn gen ui Stage.create_user_stories st).step_counter = st.step_counter + 1 ∧
    (nodeFn gen ui Stage.product_owner_review st).step_counter = st.step_counter + 1 ∧
    (nodeFn gen ui Stage.revise_user_stories st).step_counter = st.step_counter + 1 ∧
    (nodeFn gen ui Stage.create_design st).step_counter = st.step_counter + 1 ∧
    (nodeFn gen ui Stage.design_review st).step_counter = st.step_counter + 1 ∧
    (nodeFn gen ui Stage.generate_code st).step_counter = st.step_counter + 1 ∧
    (nodeFn gen ui Stage.code_review st).step_counter = st.step_counter + 1 ∧
    (nodeFn gen ui Stage.fix_code_after_code_review st).step_counter = st.step_counter + 1 ∧
    (nodeFn gen ui Stage.security_review st).step_counter = st.step_counter + 1 ∧
    (nodeFn gen ui Stage.fix_code_after_security st).step_counter = st.step_counter + 1 ∧
    (nodeFn gen ui Stage.write_test_cases st).step_counter = st.step_counter + 1 ∧
    (nodeFn gen ui Stage.test_cases_review st).step_counter = st.step_counter + 1 ∧
    (nodeFn gen ui Stage.fix_test_cases_after_review st).step_counter = st.step_counter + 1 ∧
    (nodeFn gen ui Stage.qa_testing st).step_counter = st.step_counter + 1 ∧
    (nodeFn gen ui Stage.fix_code_after_qa_feedback st).step_counter = st.step_counter + 1 ∧
    (nodeFn gen ui Stage.deployment st).step_counter = st.step_counter + 1 ∧
    (nodeFn gen ui Stage.monitoring_and_feedback st).step_counter = st.step_counter + 1 ∧
    (nodeFn gen ui Stage.maintenance_and_updates st).step_counter = -1 := by
  repeat' apply And.intro
  all_goals
    simp only [nodeFn, gather_requirements, create_user_stories, product_owner_review,
      revise_user_stories, create_design, design_review, generate_code, code_review,
      fix_code_after_code_review, security_review, fix_code_after_security, write_test_cases,
      test_cases_review, fix_test_cases_after_review, qa_testing, fix_code_after_qa_feedback,
      deployment, monitoring_and_feedback, maintenance_and_updates]
  all_goals (repeat' split) <;> rfl

/-- Claim C5: below the loop-guard threshold each decision function routes to
its success-branch stage exactly when the outcome equals the stage success
value and otherwise to its remediation stage, and every remediation stage has
a fixed edge back to the review stage that produced the rejection. -/
theorem C5_decision_mapping (st : WorkflowState) (h : st.step_counter ≤ 25) :
    decide_after_po_review st
        = (if st.po_review_outcome == some "Approved" then Stage.create_design
           else Stage.revise_user_stories) ∧
    decide_after_design_review st
        = (if st.design_review_outcome == some "Approved" then Stage.generate_code
           else Stage.create_design) ∧
    decide_after_code_review st
        = (if st.code_review_outcome == some "Approved" then Stage.security_review
           else Stage.fix_code_after_code_review) ∧
    decide_after_security_review st
        = (if st.security_review_outcome == some "Approved" then Stage.write_test_cases
           else Stage.fix_code_after_security) ∧
    decide_after_test_cases_review st
        = (if st.test_case_review_outcome == some "Approved" then Stage.qa_testing
           else Stage.fix_test_cases_after_review) ∧
    decide_after_qa_testing st
        = (if st.qa_test_outcome == some "Passed" then Stage.deployment
           else Stage.fix_code_after_qa_feedback) ∧
    nextStage Stage.revise_user_stories st = some Stage.product_owner_review ∧
    nextStage Stage.create_design st = some Stage.design_review ∧
    nextStage Stage.fix_code_after_code_review st = some Stage.code_review ∧
    nextStage Stage.fix_code_after_security st = some Stage.security_review ∧
    nextStage Stage.fix_test_cases_after_review st = some Stage.test_cases_review ∧
    nextStage Stage.fix_code_after_qa_feedback st = some Stage.qa_testing := by
  have h' : ¬ (st.step_counter > 25) := by omega
  simp [decide_after_po_review, decide_after_design_review, decide_after_code_review,
        decide_after_security_review, decide_after_test_cases_review, decide_after_qa_testing,
        nextStage, h']

/-- Witness for C5 below the threshold with a Rejected outcome. -/
theorem C5_decision_mapping_witness :
    decide_after_po_review { step_counter := 3, po_review_outcome := some "Rejected" }
      = Stage.revise_user_stories := by
  have h := C5_decision_mapping { step_counter := 3, po_review_outcome := some "Rejected" }
    (by decide)
  simpa using h.1

/-- Claim C6, counterexample: on a state with qa_test_feedback None but no
generated code, fix_code_after_qa_feedback replaces generated_code with a
placeholder and does not set qa_test_outcome to Passed. -/
theorem C6_counterexample :
    (fix_code_after_qa_feedback (fun _ => GenResult.unavailable)
        { qa_test_feedback := none, generated_code := none }).generated_code
      ≠ ({ qa_test_feedback := none, generated_code := none } : WorkflowState).generated_code ∧
    (fix_code_after_qa_feedback (fun _ => GenResult.unavailable)
        { qa_test_feedback := none, generated_code := none }).qa_test_outcome
      ≠ some "Passed" := by decide

/-- Claim C6, amended: on every state with qa_test_feedback None and non-empty
generated_code, fix_code_after_qa_feedback leaves generated_code unchanged and
forces qa_test_outcome to Passed. -/
theorem C6_qa_roundtrip (gen : Int → GenResult) (st : WorkflowState)
    (hfb : st.qa_test_feedback = none) (hcode : blank st.generated_code = false) :
    (fix_code_after_qa_feedback gen st).generated_code = st.generated_code ∧
    (fix_code_after_qa_feedback gen st).qa_test_outcome = some "Passed" := by
  have hbn : blank none = true := rfl
  simp [fix_code_after_qa_feedback, hcode, hfb, hbn]

/-- Witness for C6 with concrete code present. -/
theorem C6_qa_roundtrip_witness :
    (fix_code_after_qa_feedback (fun _ => GenResult.unavailable)
        { qa_test_feedback := none, generated_code := some "print(1)" }).generated_code
      = some "print(1)" ∧
    (fix_code_after_qa_feedback (fun _ => GenResult.unavailable)
        { qa_test_feedback := none, generated_code := some "print(1)" }).qa_test_outcome
      = some "Passed" :=
  C6_qa_roundtrip (fun _ => GenResult.unavailable)
    { qa_test_feedback := none, generated_code := some "print(1)" } (by decide) (by decide)

/-- Claim C7, counterexample: when the generation call raises, the remediation
stage revise_user_stories keeps the prior user stories verbatim instead of
substituting a visibly-marked placeholder into its owned artifact field. -/
theorem C7_counterexample :
    (revise_user_stories (fun _ => GenResult.err "service down")
        { user_stories := some "As a user I can log in",
          po_review_feedback := some "Tighten the scope" }).user_stories
      = some "As a user I can log in" := by decide

/-- Claim C7, amended: a failure in the generation call is absorbed at every
stage boundary and the counter still increments; the five producer stages
substitute a marked error string into their owned artifact, while the five
remediation stages keep the prior artifact value unchanged. -/
theorem C7_generation_failure (e : String) (st : WorkflowState) :
    (blank st.user_requirements = false →
      (create_user_stories (fun _ => GenResult.err e) st).user_stories
          = some ("Error generating stories: " ++ e) ∧
      (create_user_stories (fun _ => GenResult.err e) st).step_counter = st.step_counter + 1) ∧
    (blank st.user_stories = false →
      (create_design (fun _ => GenResult.err e) st).design_documents
          = some ("Error creating design documents: " ++ e) ∧
      (create_design (fun _ => GenResult.err e) st).step_counter = st.step_counter + 1) ∧
    (blank st.design_documents = false →
      (generate_code (fun _ => GenResult.err e) st).generated_code
          = some ("# Error generating code: " ++ e) ∧
      (generate_code (fun _ => GenResult.err e) st).step_counter = st.step_counter + 1) ∧
    (invalidCode (getS st.generated_code) = false →
      (write_test_cases (fun _ => GenResult.err e) st).test_cases
          = some ("Error generating test cases: " ++ e) ∧
      (write_test_cases (fun _ => GenResult.err e) st).step_counter = st.step_counter + 1) ∧
    (invalidCode (getS st.generated_code) = false →
      (monitoring_and_feedback (fun _ => GenResult.err e) st).monitoring_feedback
          = some ("Error during monitoring: " ++ e) ∧
      (monitoring_and_feedback (fun _ => GenResult.err e) st).step_counter
          = st.step_counter + 1) ∧
    (blank st.user_stories = false → blank st.po_review_feedback = false →
      (revise_user_stories (fun _ => GenResult.err e) st).user_stories = st.user_stories ∧
      (revise_user_stories (fun _ => GenResult.err e) st).step_counter = st.step_counter + 1) ∧
    (blank st.generated_code = false → blank st.code_review_feedback = false →
      (fix_code_after_code_review (fun _ => GenResult.err e) st).generated_code
          = st.generated_code ∧
      (fix_code_after_code_review (fun _ => GenResult.err e) st).step_counter
          = st.step_counter + 1) ∧
    (blank st.generated_code = false → blank st.security_review_feedback = false →
      (fix_code_after_security (fun _ => GenResult.err e) st).generated_code
          = st.generated_code ∧
      (fix_code_after_security (fun _ => GenResult.err e) st).step_counter
          = st.step_counter + 1) ∧
    (blank st.test_cases = false → blank st.test_case_review_feedback = false →
      (fix_test_cases_after_review (fun _ => GenResult.err e) st).test_cases = st.test_cases ∧
      (fix_test_cases_after_review (fun _ => GenResult.err e) st).step_counter
          = st.step_counter + 1) ∧
    (blank st.generated_code = false → blank st.qa_test_feedback = false →
      (fix_code_after_qa_feedback (fun _ => GenResult.err e) st).generated_code
          = st.generated_code ∧
      (fix_code_after_qa_feedback (fun _ => GenResult.err e) st).step_counter
          = st.step_counter + 1) := by
  refine ⟨?_, ?_, ?_, ?_, ?_, ?_, ?_, ?_, ?_, ?_⟩
  · intro h; simp [create_user_stories, h]
  · intro h; simp [create_design, h]
  · intro h
    cases hd : st.design_documents with
    | none => simp [blank, hd] at h
    | some s =>
      have hs : (s == "") = false := by simpa [blank, hd] using h
      simp [generate_code, hd, blank, getS, hs]
  · intro h; simp [write_test_cases, h]
  · intro h; simp [monitoring_and_feedback, h]
  · intro h1 h2; simp [revise_user_stories, h1, h2]
  · intro h1 h2; simp [fix_code_after_code_review, h1, h2]
  · intro h1 h2; simp [fix_code_after_security, h1, h2]
  · intro h1 h2; simp [fix_test_cases_after_review, h1, h2]
  · intro h1 h2; simp [fix_code_after_qa_feedback, h1, h2]

/-- Witness for C7 on a fully populated state with a concrete error. -/
theorem C7_generation_failure_witness :
    (create_user_stories (fun _ => GenResult.err "boom") c7state).user_stories
        = some ("Error generating stories: " ++ "boom") ∧
    (create_design (fun _ => GenResult.err "boom") c7state).design_documents
        = some ("Error creating design documents: " ++ "boom") ∧
    (generate_code (fun _ => GenResult.err "boom") c7state).generated_code
        = some ("# Error generating code: " ++ "boom") ∧
    (write_test_cases (fun _ => GenResult.err "boom") c7state).test_cases
        = some ("Error generating test cases: " ++ "boom") ∧
    (monitoring_and_feedback (fun _ => GenResult.err "boom") c7state).monitoring_feedback
        = some ("Error during monitoring: " ++ "boom") ∧
    (revise_user_stories (fun _ => GenResult.err "boom") c7state).user_stories
        = c7state.user_stories ∧
    (fix_code_after_code_review (fun _ => GenResult.err "boom") c7state).generated_code
        = c7state.generated_code ∧
    (fix_code_after_security (fun _ => GenResult.err "boom") c7state).generated_code
        = c7state.generated_code ∧
    (fix_test_cases_after_review (fun _ => GenResult.err "boom") c7state).test_cases
        = c7state.test_cases ∧
    (fix_code_after_qa_feedback (fun _ => GenResult.err "boom") c7state).generated_code
        = c7state.generated_code := by
  have h := C7_generation_failure "boom" c7state
  exact ⟨(h.1 (by decide)).1, (h.2.1 (by decide)).1, (h.2.2.1 (by decide)).1,
    (h.2.2.2.1 (by decide)).1, (h.2.2.2.2.1 (by decide)).1,
    (h.2.2.2.2.2.1 (by decide) (by decide)).1, (h.2.2.2.2.2.2.1 (by decide) (by decide)).1,
    (h.2.2.2.2.2.2.2.1 (by decide) (by decide)).1, (h.2.2.2.2.2.2.2.2.1 (by decide) (by decide)).1,
    (h.2.2.2.2.2.2.2.2.2 (by decide) (by decide)).1⟩

/-- Claim C8: deployment writes the skipped status string exactly when the
generated code is missing or the QA outcome is missing, Failed or Skipped;
otherwise it writes the deployed status string, which starts with Deployed. -/
theorem C8_deployment_status (st : WorkflowState) :
    ((deployment st).deployment_status
        = some "Deployment skipped due to issues in code or QA testing."
      ↔ (blank st.generated_code = true ∨ blank st.qa_test_outcome = true
          ∨ st.qa_test_outcome = some "Failed" ∨ st.qa_test_outcome = some "Skipped")) ∧
    (¬ (blank st.generated_code = true ∨ blank st.qa_test_outcome = true
          ∨ st.qa_test_outcome = some "Failed" ∨ st.qa_test_outcome = some "Skipped") →
      (deployment st).deployment_status
          = some "Deployed to Staging Environment. Verification tests passed."
        ∧ startswith "Deployed to Staging Environment. Verification tests passed." "Deployed"
            = true) := by
  have hsw : startswith "Deployed to Staging Environment. Verification tests passed." "Deployed"
      = true := by decide
  cases hc : st.generated_code <;> cases hq : st.qa_test_outcome <;>
    simp [deployment, blank, getS, hc, hq, hsw] <;> (try split) <;> simp_all <;> tauto

/-- Witness for C8 with valid code and a Passed QA outcome. -/
theorem C8_deployment_status_witness :
    (deployment { generated_code := some "print(1)",
                  qa_test_outcome := some "Passed" }).deployment_status
      = some "Deployed to Staging Environment. Verification tests passed."
    ∧ startswith "Deployed to Staging Environment. Verification tests passed." "Deployed"
        = true :=
  (C8_deployment_status
    { generated_code := some "print(1)", qa_test_outcome := some "Passed" }).2 (by decide)

/-- Claim C9, counterexample: with the generation service unavailable on every
call, the run from an initial state with non-empty user_requirements does not
reach the terminal stage at all under the recursion limit of 30, because the
code-review rejection loop consumes the budget. -/
theorem C9_counterexample :
    blank (initial_state "Build a login page").user_requirements = false ∧
    (run (fun _ => GenResult.unavailable) "Build a login page"
      (initial_state "Build a login page")).isOk = false := by decide

set_option maxRecDepth 100000 in
/-- Claim C9, amended: with the generation service unavailable on every call,
the capped run fails, and an uncapped run (fuel 40) does reach the terminal
stage, with final generated_code equal to the exact skip marker followed by
ten revision-skip notes appended by the code-fix loop, not the bare marker. -/
theorem C9_unavailable_run :
    resCounter (run (fun _ => GenResult.unavailable) "Build a login page"
        (initial_state "Build a login page")) = none ∧
    resCounter (runAux (fun _ => GenResult.unavailable) "Build a login page" 40
        Stage.gather_requirements (initial_state "Build a login page")) = some (-1) ∧
    resCode (runAux (fun _ => GenResult.unavailable) "Build a login page" 40
        Stage.gather_requirements (initial_state "Build a login page"))
      = some (some ("# Code generation skipped."
          ++ "\n\n# Revision skipped - feedback was: No valid code provided for review."
          ++ "\n\n# Revision skipped - feedback was: No valid code provided for review."
          ++ "\n\n# Revision skipped - feedback was: No valid code provided for review."
          ++ "\n\n# Revision skipped - feedback was: No valid code provided for review."
          ++ "\n\n# Revision skipped - feedback was: No valid code provided for review."
          ++ "\n\n# Revision skipped - feedback was: No valid code provided for review."
          ++ "\n\n# Revision skipped - feedback was: No valid code provided for review."
          ++ "\n\n# Revision skipped - feedback was: No valid code provided for review."
          ++ "\n\n# Revision skipped - feedback was: No valid code provided for review."
          ++ "\n\n# Revision skipped - feedback was: No valid code provided for review.")) := by
  decide
